import Mathlib

/-
Shallow embedding of `src/_moderngl.py` (moderngl/moderngl-prototypes):
the shader-program introspection metadata layer.  Python integers in this
module are GL enumeration codes, handles, indices, counts and byte sizes,
all non-negative, so they are embedded as `Nat`.  The single-character
Python `shape` strings are embedded as `Char`.  The mutable context object
(`self._ctx`) is embedded by explicit state passing: a `Ctx` value is the
current state of the referenced context, getters read from it and setters
return the updated state.
-/

/-- Entry of `ATTRIBUTE_LOOKUP_TABLE`: the Python 6-tuple
`(dimension, scalar_type, rows_length, row_length, normalizable, shape)`. -/
structure AttributeEntry where
  dimension : Nat
  scalar_type : Nat
  rows_length : Nat
  row_length : Nat
  normalizable : Bool
  shape : Char
deriving DecidableEq

/-- Class `Attribute` with the fields that `make_attribute` populates.
The Python properties `location`, `array_length`, `dimension`, `shape`,
`name` return the corresponding underscore fields unchanged, so the
fields here carry the property names. -/
structure Attribute where
  type : Nat
  program_obj : Nat
  scalar_type : Nat
  rows_length : Nat
  row_length : Nat
  normalizable : Bool
  location : Nat
  array_length : Nat
  dimension : Nat
  shape : Char
  name : String
deriving DecidableEq

/-- Dictionary `ATTRIBUTE_LOOKUP_TABLE`, embedded as an association list
with the same keys in the same order; all keys are distinct, so
`List.lookup` matches Python `dict.get` on it. -/
def ATTRIBUTE_LOOKUP_TABLE : List (Nat × AttributeEntry) := [
  (0x1404, ⟨1, 0x1404, 1, 1, false, 'i'⟩),
  (0x8b53, ⟨2, 0x1404, 1, 2, false, 'i'⟩),
  (0x8b54, ⟨3, 0x1404, 1, 3, false, 'i'⟩),
  (0x8b55, ⟨4, 0x1404, 1, 4, false, 'i'⟩),
  (0x1405, ⟨1, 0x1405, 1, 1, false, 'i'⟩),
  (0x8dc6, ⟨2, 0x1405, 1, 2, false, 'i'⟩),
  (0x8dc7, ⟨3, 0x1405, 1, 3, false, 'i'⟩),
  (0x8dc8, ⟨4, 0x1405, 1, 4, false, 'i'⟩),
  (0x1406, ⟨1, 0x1406, 1, 1, true, 'f'⟩),
  (0x8b50, ⟨2, 0x1406, 1, 2, true, 'f'⟩),
  (0x8b51, ⟨3, 0x1406, 1, 3, true, 'f'⟩),
  (0x8b52, ⟨4, 0x1406, 1, 4, true, 'f'⟩),
  (0x140a, ⟨1, 0x140a, 1, 1, false, 'd'⟩),
  (0x8ffc, ⟨2, 0x140a, 1, 2, false, 'd'⟩),
  (0x8ffd, ⟨3, 0x140a, 1, 3, false, 'd'⟩),
  (0x8ffe, ⟨4, 0x140a, 1, 4, false, 'd'⟩),
  (0x8b5a, ⟨4, 0x1406, 2, 2, true, 'f'⟩),
  (0x8b65, ⟨6, 0x1406, 2, 3, true, 'f'⟩),
  (0x8b66, ⟨8, 0x1406, 2, 4, true, 'f'⟩),
  (0x8b67, ⟨6, 0x1406, 3, 2, true, 'f'⟩),
  (0x8b5b, ⟨9, 0x1406, 3, 3, true, 'f'⟩),
  (0x8b68, ⟨12, 0x1406, 3, 4, true, 'f'⟩),
  (0x8b69, ⟨8, 0x1406, 4, 2, true, 'f'⟩),
  (0x8b6a, ⟨12, 0x1406, 4, 3, true, 'f'⟩),
  (0x8b5c, ⟨16, 0x1406, 4, 4, true, 'f'⟩),
  (0x8f46, ⟨4, 0x140a, 2, 2, false, 'd'⟩),
  (0x8f49, ⟨6, 0x140a, 2, 3, false, 'd'⟩),
  (0x8f4a, ⟨8, 0x140a, 2, 4, false, 'd'⟩),
  (0x8f4b, ⟨6, 0x140a, 3, 2, false, 'd'⟩),
  (0x8f47, ⟨9, 0x140a, 3, 3, false, 'd'⟩),
  (0x8f4c, ⟨12, 0x140a, 3, 4, false, 'd'⟩),
  (0x8f4d, ⟨8, 0x140a, 4, 2, false, 'd'⟩),
  (0x8f4e, ⟨12, 0x140a, 4, 3, false, 'd'⟩),
  (0x8f48, ⟨16, 0x140a, 4, 4, false, 'd'⟩)]

/-- Default argument of the `.get` call in `make_attribute`:
the Python tuple `(1, 0, 1, 1, False, '?')`. -/
def ATTRIBUTE_FALLBACK : AttributeEntry := ⟨1, 0, 1, 1, false, '?'⟩

/-- Function `make_attribute`.  It is total (the `.get` with a default
never raises), mirroring that the Python construction raises no
exception for any type code. -/
def make_attribute (name : String) (gl_type : Nat) (program_obj : Nat)
    (location : Nat) (array_length : Nat) : Attribute :=
  let tmp := (ATTRIBUTE_LOOKUP_TABLE.lookup gl_type).getD ATTRIBUTE_FALLBACK
  { type := gl_type
    program_obj := program_obj
    scalar_type := tmp.scalar_type
    rows_length := tmp.rows_length
    row_length := tmp.row_length * array_length
    normalizable := tmp.normalizable
    location := location
    array_length := array_length
    dimension := tmp.dimension
    shape := tmp.shape
    name := name }

/-- State of the context object referenced by `UniformBlock._ctx`: its
uniform-buffer-object binding assignments, a mapping keyed by the pair
(program handle, block index). -/
structure Ctx where
  ubo_bindings : Nat × Nat → Nat

/-- Method `_get_ubo_binding` of the context: read the binding recorded
for (program, index). -/
def Ctx.get_ubo_binding (c : Ctx) (program_obj : Nat) (index : Nat) : Nat :=
  c.ubo_bindings (program_obj, index)

/-- Method `_set_ubo_binding` of the context: record a binding for
(program, index), returning the updated context state. -/
def Ctx.set_ubo_binding (c : Ctx) (program_obj : Nat) (index : Nat)
    (binding : Nat) : Ctx :=
  ⟨fun k => if k = (program_obj, index) then binding else c.ubo_bindings k⟩

/-- Class `UniformBlock` with the fields that `make_uniform_block`
populates.  The `_ctx` back-reference is represented by passing the
referenced context state explicitly to the binding accessors. -/
structure UniformBlock where
  program_obj : Nat
  index : Nat
  size : Nat
  name : String
deriving DecidableEq

/-- Property getter `UniformBlock.binding`: delegates to the context. -/
def UniformBlock.binding_get (u : UniformBlock) (c : Ctx) : Nat :=
  c.get_ubo_binding u.program_obj u.index

/-- Property setter `UniformBlock.binding`: delegates to the context. -/
def UniformBlock.binding_set (u : UniformBlock) (c : Ctx) (binding : Nat) : Ctx :=
  c.set_ubo_binding u.program_obj u.index binding

/-- Property getter `UniformBlock.value`: delegates to the context. -/
def UniformBlock.value_get (u : UniformBlock) (c : Ctx) : Nat :=
  c.get_ubo_binding u.program_obj u.index

/-- Property setter `UniformBlock.value`: delegates to the context. -/
def UniformBlock.value_set (u : UniformBlock) (c : Ctx) (value : Nat) : Ctx :=
  c.set_ubo_binding u.program_obj u.index value

/-- Function `make_uniform_block` (the `ctx` argument is the context
reference, carried outside the record as explained on `UniformBlock`). -/
def make_uniform_block (name : String) (program_obj : Nat) (index : Nat)
    (size : Nat) : UniformBlock :=
  { name := name
    program_obj := program_obj
    index := index
    size := size }

/-- CPython object-identity model for class `Attribute`, which defines
neither an equality method nor a hash method, so it inherits the
defaults: equality is object identity and the hash is derived
injectively from the object id.  Allocation is embedded by threading a
counter of fresh object ids. -/
structure AttributeObject where
  oid : Nat
  obj : Attribute

/-- Call of `make_attribute` as an allocation: the returned object gets
a fresh id and the allocator counter advances. -/
def make_attribute_object (name : String) (gl_type : Nat) (program_obj : Nat)
    (location : Nat) (array_length : Nat) (next_oid : Nat) :
    AttributeObject × Nat :=
  (⟨next_oid, make_attribute name gl_type program_obj location array_length⟩,
   next_oid + 1)

/-- Default `object.__eq__`: identity comparison. -/
def py_object_eq (a b : AttributeObject) : Bool :=
  a.oid == b.oid

/-- Default `object.__hash__`: an injective function of the object id
(modelled as the id itself). -/
def py_object_hash (a : AttributeObject) : Nat :=
  a.oid

/-- Sample attribute name used by concrete witnesses. -/
def sampleName : String := "in_vert"

/-- Sample name for the round-trip check of C7. -/
def fooName : String := "foo"

/-- C1: for every type code not present in the lookup table,
`make_attribute` builds the descriptor from the fallback entry
(component count 1, base scalar type 0, row count 1, per-row count 1,
non-normalizable, shape unknown), so the attribute has dimension 1 and
shape `'?'`; the construction is a total function, so it never raises. -/
theorem make_attribute_unmapped_uses_fallback (name : String)
    (gl_type program_obj location n : Nat)
    (h : ATTRIBUTE_LOOKUP_TABLE.lookup gl_type = none) :
    (make_attribute name gl_type program_obj location n).dimension = 1 ∧
    (make_attribute name gl_type program_obj location n).shape = '?' ∧
    (make_attribute name gl_type program_obj location n).scalar_type = 0 ∧
    (make_attribute name gl_type program_obj location n).rows_length = 1 ∧
    (make_attribute name gl_type program_obj location n).row_length = n ∧
    (make_attribute name gl_type program_obj location n).normalizable = false := by
  simp [make_attribute, h, ATTRIBUTE_FALLBACK]

/-- Witness for C1 at the unmapped type code 0x1337. -/
theorem make_attribute_unmapped_uses_fallback_witness :
    (make_attribute sampleName 0x1337 9 2 5).dimension = 1 ∧
    (make_attribute sampleName 0x1337 9 2 5).shape = '?' ∧
    (make_attribute sampleName 0x1337 9 2 5).scalar_type = 0 ∧
    (make_attribute sampleName 0x1337 9 2 5).rows_length = 1 ∧
    (make_attribute sampleName 0x1337 9 2 5).row_length = 5 ∧
    (make_attribute sampleName 0x1337 9 2 5).normalizable = false :=
  make_attribute_unmapped_uses_fallback sampleName 0x1337 9 2 5 (by decide)

/-- C2: for every type code present in the lookup table, the attribute
built with array length 1 has dimension equal to the entry's total
component count and shape equal to the entry's shape tag. -/
theorem make_attribute_table_dimension_shape (name : String)
    (gl_type program_obj location : Nat) (e : AttributeEntry)
    (h : ATTRIBUTE_LOOKUP_TABLE.lookup gl_type = some e) :
    (make_attribute name gl_type program_obj location 1).dimension = e.dimension ∧
    (make_attribute name gl_type program_obj location 1).shape = e.shape := by
  simp [make_attribute, h]

/-- Witness for C2 at the particular codes of the claim: 0x8b51 (vec3,
3-component float vector) gives dimension 3 and shape `'f'`, and 0x8f48
(dmat4, 4x4 double matrix) gives dimension 16 and shape `'d'`. -/
theorem make_attribute_table_dimension_shape_witness :
    ((make_attribute sampleName 0x8b51 0 0 1).dimension = 3 ∧
     (make_attribute sampleName 0x8b51 0 0 1).shape = 'f') ∧
    ((make_attribute sampleName 0x8f48 0 0 1).dimension = 16 ∧
     (make_attribute sampleName 0x8f48 0 0 1).shape = 'd') :=
  ⟨make_attribute_table_dimension_shape sampleName 0x8b51 0 0
      ⟨3, 0x1406, 1, 3, true, 'f'⟩ (by decide),
   make_attribute_table_dimension_shape sampleName 0x8f48 0 0
      ⟨16, 0x140a, 4, 4, false, 'd'⟩ (by decide)⟩

/-- C3 counterexample: for the 3-component float vector code 0x8b51
with array length 2, the dimension field is 3 (the per-element
component count), not 2 x 3 = 6 as the claim states, so dimension does
not equal array length times per-element component count. -/
theorem dimension_not_scaled_by_array_length :
    (make_attribute sampleName 0x8b51 0 0 2).array_length = 2 ∧
    (make_attribute sampleName 0x8b51 0 0 2).dimension = 3 ∧
    ¬ ((make_attribute sampleName 0x8b51 0 0 2).dimension = 2 * 3) := by
  refine ⟨by decide, by decide, by decide⟩

/-- C3 amended: for every attribute built by `make_attribute`, the
dimension field equals the per-element component count of the looked-up
table entry (the fallback's count 1 for unmapped codes), independent of
the array length; the array length is stored verbatim; and it is the
row-length field, not the dimension, that is multiplied by the array
length. -/
theorem make_attribute_dimension_invariant (name : String)
    (gl_type program_obj location n : Nat) :
    (make_attribute name gl_type program_obj location n).dimension =
      ((ATTRIBUTE_LOOKUP_TABLE.lookup gl_type).getD ATTRIBUTE_FALLBACK).dimension ∧
    (make_attribute name gl_type program_obj location n).array_length = n ∧
    (make_attribute name gl_type program_obj location n).row_length =
      ((ATTRIBUTE_LOOKUP_TABLE.lookup gl_type).getD ATTRIBUTE_FALLBACK).row_length * n := by
  refine ⟨rfl, rfl, rfl⟩

/-- C4: the code contradicts the shape docstring of `Attribute`: for
the unsigned scalar code 0x1405 (uint) and the unsigned vector codes,
the table yields shape `'i'`, the same character as the signed integer
code 0x1404 (int), instead of a distinct unsigned tag. -/
theorem uint_shape_equals_int_shape :
    (make_attribute sampleName 0x1405 0 0 1).shape = 'i' ∧
    (make_attribute sampleName 0x8dc6 0 0 1).shape = 'i' ∧
    (make_attribute sampleName 0x8dc7 0 0 1).shape = 'i' ∧
    (make_attribute sampleName 0x8dc8 0 0 1).shape = 'i' ∧
    (make_attribute sampleName 0x1405 0 0 1).shape =
      (make_attribute sampleName 0x1404 0 0 1).shape := by
  refine ⟨by decide, by decide, by decide, by decide, by decide⟩

/-- C5: for every type code present in the lookup table and every array
length n > 1, the internal row-length field equals n times the table
entry's per-row component count. -/
theorem make_attribute_row_length_scaled (name : String)
    (gl_type program_obj location n : Nat) (e : AttributeEntry)
    (h : ATTRIBUTE_LOOKUP_TABLE.lookup gl_type = some e) (hn : 1 < n) :
    (make_attribute name gl_type program_obj location n).row_length =
      n * e.row_length := by
  simp [make_attribute, h, Nat.mul_comm]

/-- Witness for C5 at the 4x4 float matrix code 0x8b5c (per-row count
4) with array length 3: row length 12. -/
theorem make_attribute_row_length_scaled_witness :
    (make_attribute sampleName 0x8b5c 0 0 3).row_length = 3 * 4 :=
  make_attribute_row_length_scaled sampleName 0x8b5c 0 0 3
    ⟨16, 0x1406, 4, 4, true, 'f'⟩ (by decide) (by decide)

/-- C6: with a context whose get/set binding operations are a mapping
keyed by (program, index), setting a uniform block's binding to `v` and
then reading it back returns exactly `v`; both accessors are pure
pass-throughs to the context operations at the stored (program, index)
pair and the descriptor record itself is untouched by the write. -/
theorem ubo_binding_set_then_get (u : UniformBlock) (c : Ctx) (v : Nat) :
    UniformBlock.binding_get u (UniformBlock.binding_set u c v) = v ∧
    UniformBlock.binding_get u c = Ctx.get_ubo_binding c u.program_obj u.index ∧
    UniformBlock.binding_set u c v = Ctx.set_ubo_binding c u.program_obj u.index v := by
  refine ⟨?_, rfl, rfl⟩
  simp [UniformBlock.binding_get, UniformBlock.binding_set,
    Ctx.get_ubo_binding, Ctx.set_ubo_binding]

/-- C7: both factories store the caller-supplied identifiers verbatim:
`make_uniform_block` stores and returns name, program handle, index and
byte size exactly as given, and `make_attribute` stores the supplied
name unchanged; in particular constructing with name "foo" and reading
back the name yields exactly "foo". -/
theorem factories_store_arguments_verbatim (nm anm : String)
    (program_obj index size gl_type location array_length : Nat) :
    (make_uniform_block nm program_obj index size).name = nm ∧
    (make_uniform_block nm program_obj index size).program_obj = program_obj ∧
    (make_uniform_block nm program_obj index size).index = index ∧
    (make_uniform_block nm program_obj index size).size = size ∧
    (make_attribute anm gl_type program_obj location array_length).name = anm ∧
    (make_attribute fooName gl_type program_obj location array_length).name = fooName := by
  refine ⟨rfl, rfl, rfl, rfl, rfl, rfl⟩

/-- C8: two attribute objects allocated by successive `make_attribute`
calls with identical arguments are distinct under the default
identity-based equality and have distinct hashes, so each can serve as
a separate mapping key. -/
theorem identical_args_make_distinct_objects (name : String)
    (gl_type program_obj location array_length next_oid : Nat) :
    py_object_eq
      (make_attribute_object name gl_type program_obj location array_length next_oid).1
      (make_attribute_object name gl_type program_obj location array_length
        (make_attribute_object name gl_type program_obj location array_length next_oid).2).1
      = false ∧
    py_object_hash
      (make_attribute_object name gl_type program_obj location array_length next_oid).1 ≠
    py_object_hash
      (make_attribute_object name gl_type program_obj location array_length
        (make_attribute_object name gl_type program_obj location array_length next_oid).2).1 := by
  constructor
  · simp [make_attribute_object, py_object_eq]
  · simp [make_attribute_object, py_object_hash]

/-- C9: the `value` property of a uniform block is an exact alias of
its `binding` property: the getters invoke the same context
get operation with the same (program, index) arguments, and the setters
invoke the same context set operation, so the two are observationally
identical on every descriptor and context state. -/
theorem ubo_value_aliases_binding (u : UniformBlock) (c : Ctx) (v : Nat) :
    UniformBlock.value_get u c = UniformBlock.binding_get u c ∧
    UniformBlock.value_set u c v = UniformBlock.binding_set u c v := by
  refine ⟨rfl, rfl⟩

/-- C10: in the lookup table the normalizable flag is true exactly for
the entries whose base scalar type is the 32-bit float code 0x1406, and
the fallback entry is non-normalizable. -/
theorem normalizable_iff_float_base_type :
    (ATTRIBUTE_LOOKUP_TABLE.all fun kv =>
       kv.2.normalizable == decide (kv.2.scalar_type = 0x1406)) = true ∧
    ATTRIBUTE_FALLBACK.normalizable = false := by
  refine ⟨by decide, by decide⟩
